import Mathlib

/-!
# Verification of `src/generate_dummy_data.py` (market-sampling-project)

Shallow embedding of the dummy-data generation pipeline.  The script draws
pseudo-random values from three independent sources:

* the Python `random` module (seeded by `random.seed(seed)`),
* the NumPy global generator (seeded by `np.random.seed(seed)`, used by
  `DataFrame.sample`),
* the `faker` library's module-level generator (used for names, phone
  numbers and `date_between`; the script never calls `Faker.seed`, so this
  source starts from OS entropy).

Each source is modelled as a list of natural numbers: the draws the source
will produce, in order (an exhausted list keeps producing `0`; every finite
execution of the script consumes finitely many draws, and every such draw
sequence is realised by some list).  A call that raises in Python
(`random.choice` on an empty sequence, `random.randint` on an inverted
range) is modelled as `none`.  Dates are modelled as integers (day counts).
-/

namespace MarketSampling

/-- One draw from a pseudo-random source (list of pending draws). -/
def nextNat : List Nat → Nat × List Nat
  | [] => (0, [])
  | d :: g => (d, g)

/-- Python `random.choice(seq)`: a uniformly drawn element of `seq`;
raises (here: `none`) when `seq` is empty. -/
def choice {α : Type} : List α → List Nat → Option (α × List Nat)
  | [], _ => none
  | x :: t, g =>
    some ((x :: t).get ⟨(nextNat g).1 % (x :: t).length,
            Nat.mod_lt (nextNat g).1 (Nat.succ_pos t.length)⟩,
          (nextNat g).2)

/-- Python `random.randint(a, b)`: a uniformly drawn integer `N` with
`a ≤ N ≤ b` (both endpoints included); raises (here: `none`) when `b < a`. -/
def randint (a b : Nat) (g : List Nat) : Option (Nat × List Nat) :=
  if b < a then none
  else some (a + (nextNat g).1 % (b - a + 1), (nextNat g).2)

/-- `faker`'s `fake.name()`: an arbitrary string determined by the faker
source's next draw. -/
def fakerName (g : List Nat) : String × List Nat :=
  (s!"Name {(nextNat g).1}", (nextNat g).2)

/-- `faker`'s `fake.phone_number()`: an arbitrary string determined by the
faker source's next draw. -/
def fakerPhone (g : List Nat) : String × List Nat :=
  (s!"Phone {(nextNat g).1}", (nextNat g).2)

/-- `fake.date_between(start_date='-1y', end_date='today')`: a day in the
year-long window ending today, drawn from the faker source. -/
def fakerDateBetween (today : Int) (g : List Nat) : Int × List Nat :=
  (today - 365 + ((nextNat g).1 % 366 : Nat), (nextNat g).2)

/-- `pd.date_range(s, e)` with daily frequency: the days `s, s+1, …, e`
(both ends included); empty when `e < s`. -/
def date_range (s e : Int) : List Int :=
  (List.range (e - s + 1).toNat).map (fun (k : Nat) => s + (k : Int))

/-- The three pseudo-random sources threaded through the script:
`std` models the `random` module, `npr` the NumPy global generator
(`DataFrame.sample`), `fkr` the faker library's generator. -/
structure GenState where
  std : List Nat
  npr : List Nat
  fkr : List Nat
deriving DecidableEq

/-! ## Data model: one structure per generated table row -/

structure Area where
  areaID : String
  AreaName : String
  region : String
  district : String
deriving DecidableEq

structure Promoter where
  promoterID : String
  name : String
  contact : String
deriving DecidableEq

/-- A row of the sampling-type lookup table: the synthetic index key
(`ST1` … `STk`) together with the type's label. -/
structure SamplingTypeRow where
  key : String
  SamplingType : String
deriving DecidableEq

structure SamplingFact where
  samplingID : String
  areaID : String
  promoterID : String
  samplingType : String
  institutionType : Option String
  target : Nat
  passengers : Option Nat
  toothpasteBrand : String
  startDate : Int
  endDate : Int
deriving DecidableEq

structure Respondent where
  respondentID : String
  samplingID : String
  fullName : String
  ageRange : String
  contact : String
  toothpasteBrand : String
  perferredBrand : String
  areaID : String
  residenceArea : String
  reason : String
  optInOtherProducts : String
  dateOfSubmistion : Int
deriving DecidableEq

/-! ## `define_lookup_data` -/

structure LookupData where
  sampling_types : List String
  institution_types : List String
  regions_districts : List (String × List String)
  age_ranges : List String
  toothpaste_brands : List String
  reasons : List String

/-- `define_lookup_data()`: the static lookup data of the script. -/
def define_lookup_data : LookupData :=
  { sampling_types := ["Open Market", "Traffic", "Trade", "Third Space", "Institutional"]
    institution_types := ["Church", "Mosque"]
    regions_districts :=
      [("Greater Accra", ["La Nkwantanang", "Ablekuma", "Madina", "Adenta"]),
       ("Ashanti", ["Kumasi Metro", "Ejisu", "Obuasi"]),
       ("Central", ["Cape Coast", "Kasoa", "Mankessim"])]
    age_ranges := ["18–24", "25–34", "35–44", "45–54", "55+"]
    toothpaste_brands := ["Pepsodent", "Kel", "Colgate", "Close-Up", "Oral-B", "Sensodyne"]
    reasons :=
      ["Curious about the brand", "Referred by friend", "Free product sample",
       "Interested in survey", "Enjoy trying new products", "Promoter was convincing",
       "Happened to be available"] }

/-! ## `generate_area_data` -/

/-- The inner `for i in range(2)` loop body of `generate_area_data`, unrolled:
the two area records of one district (`i = 0` and `i = 1`, with
`area_id += 1` after each), starting at id `area_id`. -/
def district_areas (region district : String) (area_id : Nat) : List Area :=
  [{ areaID := s!"A {area_id}", AreaName := s!"{district} Area 1",
     region := region, district := district },
   { areaID := s!"A {area_id + 1}", AreaName := s!"{district} Area 2",
     region := region, district := district }]

/-- The `for district in districts` loop of `generate_area_data`. -/
def districts_go (region : String) : List String → Nat → List Area
  | [], _ => []
  | d :: ds, area_id => district_areas region d area_id ++ districts_go region ds (area_id + 2)

/-- The outer `for region, districts in regions_districts.items()` loop. -/
def regions_go : List (String × List String) → Nat → List Area
  | [], _ => []
  | (region, districts) :: rest, area_id =>
    districts_go region districts area_id ++ regions_go rest (area_id + 2 * districts.length)

/-- `generate_area_data(regions_districts, start_id)`. -/
def generate_area_data (regions_districts : List (String × List String))
    (start_id : Nat) : List Area :=
  regions_go regions_districts start_id

/-! ## `generate_promoter_data` -/

/-- The list comprehension of `generate_promoter_data`, one record per `i`,
threading the faker source through `fake.name()` and `fake.phone_number()`. -/
def promoters_go (start_id : Nat) : List Nat → List Nat → List Promoter × List Nat
  | [], fkr => ([], fkr)
  | i :: is, fkr =>
    ({ promoterID := s!"P{start_id + i}", name := (fakerName fkr).1,
       contact := (fakerPhone (fakerName fkr).2).1 } ::
       (promoters_go start_id is (fakerPhone (fakerName fkr).2).2).1,
     (promoters_go start_id is (fakerPhone (fakerName fkr).2).2).2)

/-- `generate_promoter_data(fake, num_promoters, start_id)`. -/
def generate_promoter_data (fkr : List Nat) (num_promoters start_id : Nat) :
    List Promoter × List Nat :=
  promoters_go start_id (List.range num_promoters) fkr

/-! ## `generate_sampling_type_df` -/

/-- `generate_sampling_type_df(sampling_types)`: the labels indexed by the
synthetic keys `ST1 … STk`. -/
def generate_sampling_type_df (sampling_types : List String) : List SamplingTypeRow :=
  sampling_types.enum.map (fun p => { key := s!"ST{p.1 + 1}", SamplingType := p.2 })

/-! ## `generate_sampling_facts` -/

/-- One iteration of the `for i in range(num_samples)` loop of
`generate_sampling_facts`, with `sid = start_id + i`.  Draw order follows the
source: `area_df.sample(1)` and `promoter_df.sample(1)` (NumPy source),
`random.choice(sampling_type_df.index)`, the conditional
`random.choice(institution_types)` (only when the type is `"ST5"`),
`random.randint(100, 200)`, the conditional `random.randint(5, 10)` (only
when the type is `"ST2"`), `fake.date_between` (faker source), and
`random.choice(toothpaste_brands)` inside the record literal. -/
def generate_one_fact (area_df : List Area) (promoter_df : List Promoter)
    (sampling_type_df : List SamplingTypeRow)
    (institution_types toothpaste_brands : List String)
    (today : Int) (sid : Nat) (st : GenState) : Option (SamplingFact × GenState) :=
  match choice area_df st.npr with
  | none => none
  | some (area, npr1) =>
    match choice promoter_df npr1 with
    | none => none
    | some (promoter, npr2) =>
      match choice (sampling_type_df.map SamplingTypeRow.key) st.std with
      | none => none
      | some (sampling_type, std1) =>
        match (if sampling_type = "ST5" then
                 (choice institution_types std1).map (fun p => (some p.1, p.2))
               else some (none, std1)) with
        | none => none
        | some (institution_type, std2) =>
          match randint 100 200 std2 with
          | none => none
          | some (target, std3) =>
            match (if sampling_type = "ST2" then
                     (randint 5 10 std3).map (fun p => (some p.1, p.2))
                   else some (none, std3)) with
            | none => none
            | some (passengers, std4) =>
              let start_date := (fakerDateBetween today st.fkr).1
              let end_date := start_date + 30
              match choice toothpaste_brands std4 with
              | none => none
              | some (brand, std5) =>
                some ({ samplingID := s!"S{sid}", areaID := area.areaID,
                        promoterID := promoter.promoterID, samplingType := sampling_type,
                        institutionType := institution_type, target := target,
                        passengers := passengers, toothpasteBrand := brand,
                        startDate := start_date, endDate := end_date },
                      { std := std5, npr := npr2, fkr := (fakerDateBetween today st.fkr).2 })

/-- The `for i in range(num_samples)` loop of `generate_sampling_facts`. -/
def facts_go (area_df : List Area) (promoter_df : List Promoter)
    (sampling_type_df : List SamplingTypeRow)
    (institution_types toothpaste_brands : List String)
    (today : Int) (start_id : Nat) :
    List Nat → GenState → Option (List SamplingFact × GenState)
  | [], st => some ([], st)
  | i :: is, st =>
    match generate_one_fact area_df promoter_df sampling_type_df institution_types
        toothpaste_brands today (start_id + i) st with
    | none => none
    | some (f, st1) =>
      match facts_go area_df promoter_df sampling_type_df institution_types
          toothpaste_brands today start_id is st1 with
      | none => none
      | some (fs, st2) => some (f :: fs, st2)

/-- `generate_sampling_facts(fake, area_df, promoter_df, sampling_type_df,
institution_types, toothpaste_brands, num_samples, start_id)`. -/
def generate_sampling_facts (area_df : List Area) (promoter_df : List Promoter)
    (sampling_type_df : List SamplingTypeRow)
    (institution_types toothpaste_brands : List String)
    (today : Int) (num_samples start_id : Nat) (st : GenState) :
    Option (List SamplingFact × GenState) :=
  facts_go area_df promoter_df sampling_type_df institution_types toothpaste_brands
    today start_id (List.range num_samples) st

/-! ## `generate_respondents` -/

/-- One respondent record of the inner `for _ in range(actual)` loop.  Draw
order follows the record literal of the source: `fake.name()`,
`random.choice(age_ranges)`, `fake.phone_number()`,
`random.choice(toothpaste_brands)`, `area_df['AreaName'].sample(1)` (NumPy
source), `random.choice(reasons)`, `random.choice(["Yes", "No"])`, and
`random.choice(pd.date_range(startDate, endDate))`. -/
def respondent_one (area_df : List Area)
    (age_ranges toothpaste_brands reasons : List String)
    (sampling : SamplingFact) (rid : Nat) (st : GenState) :
    Option (Respondent × GenState) :=
  let nm := (fakerName st.fkr).1
  match choice age_ranges st.std with
  | none => none
  | some (age, std1) =>
    let ct := (fakerPhone (fakerName st.fkr).2).1
    match choice toothpaste_brands std1 with
    | none => none
    | some (pref, std2) =>
      match choice (area_df.map Area.AreaName) st.npr with
      | none => none
      | some (res, npr1) =>
        match choice reasons std2 with
        | none => none
        | some (why, std3) =>
          match choice ["Yes", "No"] std3 with
          | none => none
          | some (opt, std4) =>
            match choice (date_range sampling.startDate sampling.endDate) std4 with
            | none => none
            | some (dos, std5) =>
              some ({ respondentID := s!"R{rid}", samplingID := sampling.samplingID,
                      fullName := nm, ageRange := age, contact := ct,
                      toothpasteBrand := sampling.toothpasteBrand, perferredBrand := pref,
                      areaID := sampling.areaID, residenceArea := res, reason := why,
                      optInOtherProducts := opt, dateOfSubmistion := dos },
                    { std := std5, npr := npr1,
                      fkr := (fakerPhone (fakerName st.fkr).2).2 })

/-- The inner `for _ in range(actual)` loop of `generate_respondents`:
`count` records starting at id `rid`. -/
def respondents_batch (area_df : List Area)
    (age_ranges toothpaste_brands reasons : List String) (sampling : SamplingFact) :
    Nat → Nat → GenState → Option (List Respondent × GenState)
  | 0, _, st => some ([], st)
  | count + 1, rid, st =>
    match respondent_one area_df age_ranges toothpaste_brands reasons sampling rid st with
    | none => none
    | some (r, st1) =>
      match respondents_batch area_df age_ranges toothpaste_brands reasons sampling
          count (rid + 1) st1 with
      | none => none
      | some (rest, st2) => some (r :: rest, st2)

/-- The outer `for _, sampling in sampling_fact_df.iterrows()` loop: for each
event draw `actual = random.randint(100, sampling['target'])`, then generate
that many respondent records. -/
def respondents_go (area_df : List Area)
    (age_ranges toothpaste_brands reasons : List String) :
    List SamplingFact → Nat → GenState → Option (List Respondent × GenState)
  | [], _, st => some ([], st)
  | sampling :: rest, rid, st =>
    match randint 100 sampling.target st.std with
    | none => none
    | some (actual, std1) =>
      match respondents_batch area_df age_ranges toothpaste_brands reasons sampling
          actual rid { st with std := std1 } with
      | none => none
      | some (batch, st1) =>
        match respondents_go area_df age_ranges toothpaste_brands reasons rest
            (rid + actual) st1 with
        | none => none
        | some (others, st2) => some (batch ++ others, st2)

/-- `generate_respondents(fake, sampling_fact_df, area_df, age_ranges,
toothpaste_brands, reasons, start_id)`. -/
def generate_respondents (sampling_fact_df : List SamplingFact) (area_df : List Area)
    (age_ranges toothpaste_brands reasons : List String) (start_id : Nat)
    (st : GenState) : Option (List Respondent × GenState) :=
  respondents_go area_df age_ranges toothpaste_brands reasons sampling_fact_df start_id st

/-! ## `main` -/

/-- The five tables `main` hands to `export_to_excel`, one field per sheet. -/
structure MainOut where
  area_df : List Area
  promoter_df : List Promoter
  sampling_fact_df : List SamplingFact
  respondents_df : List Respondent
  sampling_type_df : List SamplingTypeRow
deriving DecidableEq

/-- The body of `main()` given the initial contents of the three
pseudo-random sources: area data, promoter data (5 promoters), sampling-type
table, sampling facts (6 events), respondents, all from the lookup data. -/
def pipeline_main (today : Int) (std npr fkr : List Nat) : Option MainOut :=
  let lookup_data := define_lookup_data
  let area_df := generate_area_data lookup_data.regions_districts 1001
  let pr := generate_promoter_data fkr 5 1000
  let sampling_type_df := generate_sampling_type_df lookup_data.sampling_types
  match generate_sampling_facts area_df pr.1 sampling_type_df
      lookup_data.institution_types lookup_data.toothpaste_brands today 6 1000
      { std := std, npr := npr, fkr := pr.2 } with
  | none => none
  | some (sampling_fact_df, st1) =>
    match generate_respondents sampling_fact_df area_df lookup_data.age_ranges
        lookup_data.toothpaste_brands lookup_data.reasons 1000 st1 with
    | none => none
    | some (respondents_df, _) =>
      some { area_df := area_df, promoter_df := pr.1,
             sampling_fact_df := sampling_fact_df, respondents_df := respondents_df,
             sampling_type_df := sampling_type_df }

/-- `main()` as run with `initialize_faker(seed=42)`: `random.seed(seed)` and
`np.random.seed(seed)` make the `std` and `npr` sources functions of the
seed (`mt` and `npMt` stand for those seeding functions), but `Faker()` is
created without ever calling `Faker.seed`, so the faker source `fkr` is
fresh OS entropy of the run, not a function of the seed. -/
def main_with_seed (mt npMt : Nat → List Nat) (seed : Nat) (today : Int)
    (fkr : List Nat) : Option MainOut :=
  pipeline_main today (mt seed) (npMt seed) fkr

/-! ## Spec-side description of the area table

The spec states: "For every district, produces exactly 2 area records with
sequential IDs formatted as `A {n}` and names `{district} Area {1|2}`.
Output ordering follows mapping iteration order."  `area_data_spec` is that
description, walking the flattened (region, district) list in iteration
order; it is compared with `generate_area_data` by theorem. -/

/-- The total number of districts across all regions of the mapping. -/
def totalDistricts (regions_districts : List (String × List String)) : Nat :=
  (regions_districts.map (fun p => p.2.length)).sum

/-- The (region, district) pairs of the mapping, in iteration order. -/
def flatDistricts (regions_districts : List (String × List String)) :
    List (String × String) :=
  regions_districts.flatMap (fun p => p.2.map (fun d => (p.1, d)))

/-- Spec-side area table: per district (in iteration order) exactly two
records with consecutive IDs and names `{district} Area 1` / `Area 2`. -/
def area_data_spec : List (String × String) → Nat → List Area
  | [], _ => []
  | (region, district) :: rest, area_id =>
    [{ areaID := s!"A {area_id}", AreaName := s!"{district} Area 1",
       region := region, district := district },
     { areaID := s!"A {area_id + 1}", AreaName := s!"{district} Area 2",
       region := region, district := district }] ++
    area_data_spec rest (area_id + 2)

/-! ## Concrete fixtures used by witnesses and counterexamples -/

/-- All three pseudo-random sources exhausted: every draw yields `0`. -/
def emptyGen : GenState := { std := [], npr := [], fkr := [] }

/-- The area table `main` builds. -/
def mainArea : List Area := generate_area_data define_lookup_data.regions_districts 1001

/-- The promoter table `main` builds, on an exhausted faker source. -/
def mainPromoters : List Promoter := (generate_promoter_data [] 5 1000).1

/-- The sampling-type table `main` builds. -/
def mainTypes : List SamplingTypeRow :=
  generate_sampling_type_df define_lookup_data.sampling_types

/-- The single sampling event generated from `emptyGen` with `today = 0`:
every draw is `0`, so it samples the first area, the first promoter, type
`ST1`, target `100 + 0 % 101 = 100` and the first brand. -/
def wFact1 : SamplingFact :=
  { samplingID := "S1000", areaID := "A 1001", promoterID := "P1000",
    samplingType := "ST1", institutionType := none, target := 100,
    passengers := none, toothpasteBrand := "Pepsodent",
    startDate := -365, endDate := -335 }

/-- A `std` source whose target draw is `100`: `100 + 100 % 101 = 200`. -/
def st200 : GenState := { std := [0, 100, 0], npr := [], fkr := [] }

/-- The sampling event generated from `st200`: its target is `200`. -/
def wFact200 : SamplingFact :=
  { samplingID := "S1000", areaID := "A 1001", promoterID := "P1000",
    samplingType := "ST1", institutionType := none, target := 200,
    passengers := none, toothpasteBrand := "Pepsodent",
    startDate := -365, endDate := -335 }

/-- A `std` source drawing type `ST2` and then passengers draw `5`:
`5 + 5 % 6 = 10`. -/
def stST2 : GenState := { std := [1, 0, 5, 0], npr := [], fkr := [] }

/-- The sampling event generated from `stST2`: a traffic (`ST2`) event with
`passengers = some 10`. -/
def wFactST2 : SamplingFact :=
  { samplingID := "S1000", areaID := "A 1001", promoterID := "P1000",
    samplingType := "ST2", institutionType := none, target := 100,
    passengers := some 10, toothpasteBrand := "Pepsodent",
    startDate := -365, endDate := -335 }

/-! ## Basic lemmas about the draw primitives -/

theorem choice_mem {α : Type} {xs : List α} {g : List Nat} {v : α} {g' : List Nat}
    (h : choice xs g = some (v, g')) : v ∈ xs := by
  match xs with
  | [] => simp [choice] at h
  | x :: t =>
    simp only [choice, Option.some.injEq, Prod.mk.injEq] at h
    obtain ⟨h1, -⟩ := h
    rw [← h1]
    exact List.get_mem _ _ _

theorem choice_isSome {α : Type} {xs : List α} (hx : xs ≠ []) (g : List Nat) :
    (choice xs g).isSome = true := by
  match xs with
  | [] => exact absurd rfl hx
  | x :: t => simp [choice]

theorem randint_bounds {a b : Nat} {g : List Nat} {v : Nat} {g' : List Nat}
    (h : randint a b g = some (v, g')) : a ≤ v ∧ v ≤ b := by
  unfold randint at h
  split at h
  · exact absurd h (by simp)
  · rename_i hab
    simp only [Option.some.injEq, Prod.mk.injEq] at h
    obtain ⟨h1, -⟩ := h
    have hm : (nextNat g).1 % (b - a + 1) < b - a + 1 :=
      Nat.mod_lt _ (Nat.succ_pos _)
    omega

theorem randint_isSome {a b : Nat} (hab : a ≤ b) (g : List Nat) :
    (randint a b g).isSome = true := by
  unfold randint
  rw [if_neg (by omega)]
  simp

theorem date_range_mem {s e v : Int} (h : v ∈ date_range s e) : s ≤ v ∧ v ≤ e := by
  unfold date_range at h
  simp only [List.mem_map, List.mem_range] at h
  obtain ⟨k, hk, rfl⟩ := h
  omega

/-! ## Injectivity of the decimal rendering used by the ID format strings -/

theorem toDigitsCore_append (b : Nat) :
    ∀ (fuel n : Nat) (l : List Char),
      Nat.toDigitsCore b fuel n l = Nat.toDigitsCore b fuel n [] ++ l := by
  intro fuel
  induction fuel with
  | zero => intro n l; simp [Nat.toDigitsCore]
  | succ fuel ih =>
    intro n l
    simp only [Nat.toDigitsCore]
    split
    · simp
    · rw [ih (n / b) (Nat.digitChar (n % b) :: l), ih (n / b) [Nat.digitChar (n % b)]]
      simp

theorem digitChar_toNat {d : Nat} (hd : d < 10) : (Nat.digitChar d).toNat = 48 + d := by
  interval_cases d <;> rfl

/-- Folding the decimal digits produced by `Nat.toDigitsCore` recovers the
number (with accumulator `a` contributing `a * 10 ^ length`). -/
theorem toDigitsCore_foldl :
    ∀ (fuel n : Nat), n < fuel → ∀ (a : Nat),
      (Nat.toDigitsCore 10 fuel n []).foldl (fun acc c => 10 * acc + (c.toNat - 48)) a =
        a * 10 ^ (Nat.toDigitsCore 10 fuel n []).length + n := by
  intro fuel
  induction fuel with
  | zero => intro n h; omega
  | succ fuel ih =>
    intro n h a
    simp only [Nat.toDigitsCore]
    split
    · rename_i h10
      have hn : n < 10 := by
        rcases Nat.lt_or_ge n 10 with h' | h'
        · exact h'
        · exact absurd h10 (by
            have := Nat.div_le_div_right (c := 10) h'
            simp at this
            omega)
      have hmod : n % 10 = n := Nat.mod_eq_of_lt hn
      simp only [List.foldl, List.length,
        digitChar_toNat (Nat.mod_lt n (by norm_num) : n % 10 < 10)]
      simp [hmod, pow_one]
      omega
    · rename_i h10
      have hne : n ≠ 0 := by
        intro h0; exact h10 (by simp [h0])
      have hdivlt : n / 10 < fuel := by
        have h1 : n / 10 < n := Nat.div_lt_self (Nat.pos_of_ne_zero hne) (by norm_num)
        omega
      rw [toDigitsCore_append]
      rw [List.foldl_append, List.length_append]
      rw [ih (n / 10) hdivlt a]
      simp only [List.foldl, List.length]
      rw [digitChar_toNat (Nat.mod_lt n (by norm_num) : n % 10 < 10)]
      rw [pow_succ]
      have hpull : a * (10 ^ (Nat.toDigitsCore 10 fuel (n / 10) []).length * 10) =
          10 * (a * 10 ^ (Nat.toDigitsCore 10 fuel (n / 10) []).length) := by ring
      rw [hpull]
      omega

/-- The decimal rendering of a natural number is injective. -/
theorem nat_repr_inj {m n : Nat} (h : Nat.repr m = Nat.repr n) : m = n := by
  have h2 : Nat.toDigits 10 m = Nat.toDigits 10 n := by
    have hd := congrArg String.data h
    simpa [Nat.repr] using hd
  have hm := toDigitsCore_foldl (m + 1) m (Nat.lt_succ_self m) 0
  have hn := toDigitsCore_foldl (n + 1) n (Nat.lt_succ_self n) 0
  unfold Nat.toDigits at h2
  rw [h2] at hm
  simp only [Nat.zero_mul, Nat.zero_add] at hm hn
  omega

/-- The `f"A {area_id}"` ID format of `generate_area_data` is injective. -/
theorem areaIdStr_inj {m n : Nat} (h : s!"A {m}" = s!"A {n}") : m = n := by
  have hd := congrArg String.data h
  simp only [String.data_append, List.append_assoc] at hd
  have e : (toString "" : String).data = ([] : List Char) := rfl
  rw [e, List.append_nil, List.append_nil] at hd
  have h2 : (toString m : String).data = (toString n : String).data :=
    List.append_cancel_left hd
  exact nat_repr_inj (String.ext h2)

theorem date_range_length (s e : Int) : (date_range s e).length = (e - s + 1).toNat := by
  unfold date_range
  rw [List.length_map, List.length_range]

theorem date_range_ne_nil {s e : Int} (hse : s ≤ e) : date_range s e ≠ [] := by
  intro hnil
  have hlen := congrArg List.length hnil
  rw [date_range_length] at hlen
  simp only [List.length_nil] at hlen
  omega

/-! ## Per-record properties of `generate_sampling_facts` -/

/-- Everything a single loop iteration of `generate_sampling_facts`
guarantees about the record it emits. -/
theorem generate_one_fact_ok {area_df : List Area} {promoter_df : List Promoter}
    {sampling_type_df : List SamplingTypeRow}
    {institution_types toothpaste_brands : List String}
    {today : Int} {sid : Nat} {st : GenState} {f : SamplingFact} {st' : GenState}
    (h : generate_one_fact area_df promoter_df sampling_type_df institution_types
      toothpaste_brands today sid st = some (f, st')) :
    100 ≤ f.target ∧ f.target ≤ 200 ∧ f.endDate = f.startDate + 30 ∧
    (f.institutionType.isSome ↔ f.samplingType = "ST5") ∧
    (f.passengers.isSome ↔ f.samplingType = "ST2") ∧
    (∀ p, f.passengers = some p → 5 ≤ p ∧ p ≤ 10) ∧
    f.areaID ∈ area_df.map Area.areaID ∧
    f.promoterID ∈ promoter_df.map Promoter.promoterID ∧
    f.samplingType ∈ sampling_type_df.map SamplingTypeRow.key := by
  unfold generate_one_fact at h
  split at h
  case _ => exact absurd h (by simp)
  case _ area npr1 hArea =>
  split at h
  case _ => exact absurd h (by simp)
  case _ promoter npr2 hProm =>
  split at h
  case _ => exact absurd h (by simp)
  case _ sampling_type std1 hType =>
  split at h
  case _ => exact absurd h (by simp)
  case _ institution_type std2 hInst =>
  split at h
  case _ => exact absurd h (by simp)
  case _ target std3 hTarget =>
  split at h
  case _ => exact absurd h (by simp)
  case _ passengers std4 hPass =>
  split at h
  case _ => exact absurd h (by simp)
  case _ brand std5 hBrand =>
  simp only [Option.some.injEq, Prod.mk.injEq] at h
  obtain ⟨hf, -⟩ := h
  subst hf
  refine ⟨(randint_bounds hTarget).1, (randint_bounds hTarget).2, rfl, ?_, ?_, ?_, ?_, ?_, ?_⟩
  · split at hInst
    · rename_i hST5
      rcases hC : choice institution_types std1 with _ | ⟨it, s1⟩
      · rw [hC] at hInst; exact absurd hInst (by simp)
      · rw [hC] at hInst
        simp only [Option.map_some', Option.some.injEq, Prod.mk.injEq] at hInst
        obtain ⟨hI, -⟩ := hInst
        rw [← hI]
        simp [hST5]
    · rename_i hST5
      simp only [Option.some.injEq, Prod.mk.injEq] at hInst
      obtain ⟨hI, -⟩ := hInst
      rw [← hI]
      simp [hST5]
  · split at hPass
    · rename_i hST2
      rcases hC : randint 5 10 std3 with _ | ⟨pv, s1⟩
      · rw [hC] at hPass; exact absurd hPass (by simp)
      · rw [hC] at hPass
        simp only [Option.map_some', Option.some.injEq, Prod.mk.injEq] at hPass
        obtain ⟨hP, -⟩ := hPass
        rw [← hP]
        simp [hST2]
    · rename_i hST2
      simp only [Option.some.injEq, Prod.mk.injEq] at hPass
      obtain ⟨hP, -⟩ := hPass
      rw [← hP]
      simp [hST2]
  · intro p hp
    split at hPass
    · rename_i hST2
      rcases hC : randint 5 10 std3 with _ | ⟨pv, s1⟩
      · rw [hC] at hPass; exact absurd hPass (by simp)
      · rw [hC] at hPass
        simp only [Option.map_some', Option.some.injEq, Prod.mk.injEq] at hPass
        obtain ⟨hP, -⟩ := hPass
        rw [← hP] at hp
        simp only [Option.some.injEq] at hp
        subst hp
        exact randint_bounds hC
    · simp only [Option.some.injEq, Prod.mk.injEq] at hPass
      obtain ⟨hP, -⟩ := hPass
      rw [← hP] at hp
      exact absurd hp (by simp)
  · exact List.mem_map_of_mem Area.areaID (choice_mem hArea)
  · exact List.mem_map_of_mem Promoter.promoterID (choice_mem hProm)
  · exact choice_mem hType

/-- Every record in a batch produced by the fact-generation loop satisfies
the per-record guarantees. -/
theorem facts_go_ok {area_df : List Area} {promoter_df : List Promoter}
    {sampling_type_df : List SamplingTypeRow}
    {institution_types toothpaste_brands : List String}
    {today : Int} {start_id : Nat} :
    ∀ {is : List Nat} {st : GenState} {facts : List SamplingFact} {st' : GenState},
      facts_go area_df promoter_df sampling_type_df institution_types toothpaste_brands
        today start_id is st = some (facts, st') →
      ∀ f ∈ facts,
        100 ≤ f.target ∧ f.target ≤ 200 ∧ f.endDate = f.startDate + 30 ∧
        (f.institutionType.isSome ↔ f.samplingType = "ST5") ∧
        (f.passengers.isSome ↔ f.samplingType = "ST2") ∧
        (∀ p, f.passengers = some p → 5 ≤ p ∧ p ≤ 10) ∧
        f.areaID ∈ area_df.map Area.areaID ∧
        f.promoterID ∈ promoter_df.map Promoter.promoterID ∧
        f.samplingType ∈ sampling_type_df.map SamplingTypeRow.key := by
  intro is
  induction is with
  | nil =>
    intro st facts st' h f hf
    simp only [facts_go, Option.some.injEq, Prod.mk.injEq] at h
    obtain ⟨hfs, -⟩ := h
    rw [← hfs] at hf
    cases hf
  | cons i is ih =>
    intro st facts st' h f hf
    unfold facts_go at h
    split at h
    case _ => exact absurd h (by simp)
    case _ f1 st1 hF1 =>
    split at h
    case _ => exact absurd h (by simp)
    case _ fs st2 hFs =>
    simp only [Option.some.injEq, Prod.mk.injEq] at h
    obtain ⟨hfs, -⟩ := h
    rw [← hfs] at hf
    rcases List.mem_cons.mp hf with hf1 | hfrest
    · subst hf1
      exact generate_one_fact_ok hF1
    · exact ih hFs f hfrest

/-- Every record produced by `generate_sampling_facts` satisfies the
per-record guarantees. -/
theorem generate_sampling_facts_ok {area_df : List Area} {promoter_df : List Promoter}
    {sampling_type_df : List SamplingTypeRow}
    {institution_types toothpaste_brands : List String}
    {today : Int} {num_samples start_id : Nat} {st : GenState}
    {facts : List SamplingFact} {st' : GenState}
    (h : generate_sampling_facts area_df promoter_df sampling_type_df institution_types
      toothpaste_brands today num_samples start_id st = some (facts, st')) :
    ∀ f ∈ facts,
      100 ≤ f.target ∧ f.target ≤ 200 ∧ f.endDate = f.startDate + 30 ∧
      (f.institutionType.isSome ↔ f.samplingType = "ST5") ∧
      (f.passengers.isSome ↔ f.samplingType = "ST2") ∧
      (∀ p, f.passengers = some p → 5 ≤ p ∧ p ≤ 10) ∧
      f.areaID ∈ area_df.map Area.areaID ∧
      f.promoterID ∈ promoter_df.map Promoter.promoterID ∧
      f.samplingType ∈ sampling_type_df.map SamplingTypeRow.key :=
  facts_go_ok h

theorem respondent_one_ok {area_df : List Area}
    {age_ranges toothpaste_brands reasons : List String}
    {sampling : SamplingFact} {rid : Nat} {st : GenState}
    {r : Respondent} {st' : GenState}
    (h : respondent_one area_df age_ranges toothpaste_brands reasons sampling rid st =
      some (r, st')) :
    r.samplingID = sampling.samplingID ∧ r.areaID = sampling.areaID ∧
    sampling.startDate ≤ r.dateOfSubmistion ∧ r.dateOfSubmistion ≤ sampling.endDate := by
  unfold respondent_one at h
  split at h
  case _ => exact absurd h (by simp)
  case _ age std1 hAge =>
  split at h
  case _ => exact absurd h (by simp)
  case _ pref std2 hPref =>
  split at h
  case _ => exact absurd h (by simp)
  case _ res npr1 hRes =>
  split at h
  case _ => exact absurd h (by simp)
  case _ why std3 hWhy =>
  split at h
  case _ => exact absurd h (by simp)
  case _ opt std4 hOpt =>
  split at h
  case _ => exact absurd h (by simp)
  case _ dos std5 hDos =>
  simp only [Option.some.injEq, Prod.mk.injEq] at h
  obtain ⟨hr, -⟩ := h
  subst hr
  exact ⟨rfl, rfl, (date_range_mem (choice_mem hDos)).1, (date_range_mem (choice_mem hDos)).2⟩

theorem respondents_batch_ok {area_df : List Area}
    {age_ranges toothpaste_brands reasons : List String} {sampling : SamplingFact} :
    ∀ {count rid : Nat} {st : GenState} {rs : List Respondent} {st' : GenState},
      respondents_batch area_df age_ranges toothpaste_brands reasons sampling count rid st =
        some (rs, st') →
      rs.length = count ∧
      ∀ r ∈ rs, r.samplingID = sampling.samplingID ∧ r.areaID = sampling.areaID ∧
        sampling.startDate ≤ r.dateOfSubmistion ∧ r.dateOfSubmistion ≤ sampling.endDate := by
  intro count
  induction count with
  | zero =>
    intro rid st rs st' h
    simp only [respondents_batch, Option.some.injEq, Prod.mk.injEq] at h
    obtain ⟨hrs, -⟩ := h
    rw [← hrs]
    exact ⟨rfl, by intro r hr; cases hr⟩
  | succ count ih =>
    intro rid st rs st' h
    unfold respondents_batch at h
    split at h
    case _ => exact absurd h (by simp)
    case _ r1 st1 hR1 =>
    split at h
    case _ => exact absurd h (by simp)
    case _ rest st2 hRest =>
    simp only [Option.some.injEq, Prod.mk.injEq] at h
    obtain ⟨hrs, -⟩ := h
    rw [← hrs]
    obtain ⟨hlen, hmem⟩ := ih hRest
    refine ⟨by simp [hlen], ?_⟩
    intro r hr
    rcases List.mem_cons.mp hr with h1 | h2
    · subst h1; exact respondent_one_ok hR1
    · exact hmem r h2

theorem respondents_go_ok {area_df : List Area}
    {age_ranges toothpaste_brands reasons : List String} :
    ∀ {facts : List SamplingFact} {rid : Nat} {st : GenState}
      {out : List Respondent} {st' : GenState},
      respondents_go area_df age_ranges toothpaste_brands reasons facts rid st =
        some (out, st') →
      ∃ batches : List (List Respondent), out = batches.flatten ∧
        List.Forall₂ (fun (b : List Respondent) (f : SamplingFact) =>
          (100 ≤ b.length ∧ b.length ≤ f.target) ∧
          ∀ r ∈ b, r.samplingID = f.samplingID ∧ r.areaID = f.areaID ∧
            f.startDate ≤ r.dateOfSubmistion ∧ r.dateOfSubmistion ≤ f.endDate)
          batches facts := by
  intro facts
  induction facts with
  | nil =>
    intro rid st out st' h
    simp only [respondents_go, Option.some.injEq, Prod.mk.injEq] at h
    obtain ⟨hout, -⟩ := h
    exact ⟨[], by rw [← hout]; rfl, List.Forall₂.nil⟩
  | cons f fs ih =>
    intro rid st out st' h
    unfold respondents_go at h
    split at h
    case _ => exact absurd h (by simp)
    case _ actual std1 hActual =>
    split at h
    case _ => exact absurd h (by simp)
    case _ batch st1 hBatch =>
    split at h
    case _ => exact absurd h (by simp)
    case _ others st2 hOthers =>
    simp only [Option.some.injEq, Prod.mk.injEq] at h
    obtain ⟨hout, -⟩ := h
    obtain ⟨bs, hbs, hF⟩ := ih hOthers
    obtain ⟨hlen, hmem⟩ := respondents_batch_ok hBatch
    refine ⟨batch :: bs, ?_, ?_⟩
    · rw [← hout, hbs]; rfl
    · refine List.Forall₂.cons ⟨⟨?_, ?_⟩, hmem⟩ hF
      · rw [hlen]; exact (randint_bounds hActual).1
      · rw [hlen]; exact (randint_bounds hActual).2

theorem forall2_exists_left {α β : Type} {R : α → β → Prop} :
    ∀ {as : List α} {bs : List β}, List.Forall₂ R as bs →
      ∀ {a : α}, a ∈ as → ∃ b ∈ bs, R a b := by
  intro as bs h
  induction h with
  | nil => intro a ha; cases ha
  | cons hR _ ih =>
    intro a ha
    rcases List.mem_cons.mp ha with h1 | h2
    · subst h1; exact ⟨_, List.mem_cons_self _ _, hR⟩
    · obtain ⟨b, hb, hRb⟩ := ih h2
      exact ⟨b, List.mem_cons_of_mem _ hb, hRb⟩

theorem respondent_one_isSome {area_df : List Area}
    {age_ranges toothpaste_brands reasons : List String} {sampling : SamplingFact}
    (hA : area_df ≠ []) (hages : age_ranges ≠ []) (hbrands : toothpaste_brands ≠ [])
    (hreasons : reasons ≠ []) (hdate : sampling.startDate ≤ sampling.endDate)
    (rid : Nat) (st : GenState) :
    (respondent_one area_df age_ranges toothpaste_brands reasons sampling rid st).isSome =
      true := by
  obtain ⟨a0, as0, rfl⟩ := List.exists_cons_of_ne_nil hages
  obtain ⟨b0, bs0, rfl⟩ := List.exists_cons_of_ne_nil hbrands
  obtain ⟨r0, rs0, rfl⟩ := List.exists_cons_of_ne_nil hreasons
  obtain ⟨ar0, ars0, rfl⟩ := List.exists_cons_of_ne_nil hA
  rcases hdr : date_range sampling.startDate sampling.endDate with _ | ⟨d0, ds0⟩
  · exact absurd hdr (date_range_ne_nil hdate)
  · simp [respondent_one, choice, hdr]

theorem respondents_batch_isSome {area_df : List Area}
    {age_ranges toothpaste_brands reasons : List String} {sampling : SamplingFact}
    (hA : area_df ≠ []) (hages : age_ranges ≠ []) (hbrands : toothpaste_brands ≠ [])
    (hreasons : reasons ≠ []) (hdate : sampling.startDate ≤ sampling.endDate) :
    ∀ (count rid : Nat) (st : GenState),
      (respondents_batch area_df age_ranges toothpaste_brands reasons sampling
        count rid st).isSome = true := by
  intro count
  induction count with
  | zero => intro rid st; simp [respondents_batch]
  | succ count ih =>
    intro rid st
    obtain ⟨⟨r1, st1⟩, hR1⟩ := Option.isSome_iff_exists.mp
      (respondent_one_isSome hA hages hbrands hreasons hdate rid st)
    obtain ⟨⟨rest, st2⟩, hRest⟩ := Option.isSome_iff_exists.mp (ih (rid + 1) st1)
    unfold respondents_batch
    simp only [hR1]
    simp only [hRest]
    simp

theorem respondents_go_isSome {area_df : List Area}
    {age_ranges toothpaste_brands reasons : List String}
    (hA : area_df ≠ []) (hages : age_ranges ≠ []) (hbrands : toothpaste_brands ≠ [])
    (hreasons : reasons ≠ []) :
    ∀ (facts : List SamplingFact) (rid : Nat) (st : GenState),
      (∀ f ∈ facts, 100 ≤ f.target ∧ f.startDate ≤ f.endDate) →
      (respondents_go area_df age_ranges toothpaste_brands reasons facts rid st).isSome =
        true := by
  intro facts
  induction facts with
  | nil => intro rid st hf; simp [respondents_go]
  | cons f fs ih =>
    intro rid st hf
    have hft := hf f (List.mem_cons_self f fs)
    obtain ⟨⟨actual, std1⟩, hAct⟩ := Option.isSome_iff_exists.mp
      (randint_isSome hft.1 st.std)
    obtain ⟨⟨batch, st1⟩, hBatch⟩ := Option.isSome_iff_exists.mp
      (respondents_batch_isSome hA hages hbrands hreasons hft.2 actual rid
        { st with std := std1 })
    obtain ⟨⟨others, st2⟩, hOthers⟩ := Option.isSome_iff_exists.mp
      (ih (rid + actual) st1 (fun g hg => hf g (List.mem_cons_of_mem f hg)))
    unfold respondents_go
    simp only [hAct]
    simp only [hBatch]
    simp only [hOthers]
    simp

theorem districts_go_ids (region : String) :
    ∀ (ds : List String) (aid : Nat),
      (districts_go region ds aid).map Area.areaID =
        (List.range (2 * ds.length)).map (fun k => s!"A {aid + k}") := by
  intro ds
  induction ds with
  | nil => intro aid; simp [districts_go]
  | cons d ds ih =>
    intro aid
    show (district_areas region d aid ++ districts_go region ds (aid + 2)).map Area.areaID = _
    rw [List.map_append, ih (aid + 2)]
    have h2 : 2 * (d :: ds).length = 2 + 2 * ds.length := by
      simp [List.length_cons]; ring
    rw [h2, List.range_add, List.map_append, List.map_map]
    congr 1
    simp only [Function.comp_def]
    simp only [← Nat.add_assoc]

theorem regions_go_ids :
    ∀ (rd : List (String × List String)) (aid : Nat),
      (regions_go rd aid).map Area.areaID =
        (List.range (2 * totalDistricts rd)).map (fun k => s!"A {aid + k}") := by
  intro rd
  induction rd with
  | nil => intro aid; rfl
  | cons p rest ih =>
    intro aid
    obtain ⟨region, districts⟩ := p
    show (districts_go region districts aid ++
        regions_go rest (aid + 2 * districts.length)).map Area.areaID = _
    rw [List.map_append, districts_go_ids region districts aid, ih]
    have h2 : 2 * totalDistricts ((region, districts) :: rest) =
        2 * districts.length + 2 * totalDistricts rest := by
      simp [totalDistricts]; ring
    rw [h2, List.range_add, List.map_append, List.map_map]
    congr 1
    simp only [Function.comp_def]
    simp only [← Nat.add_assoc]

theorem generate_area_data_ids (rd : List (String × List String)) (sid : Nat) :
    (generate_area_data rd sid).map Area.areaID =
      (List.range (2 * totalDistricts rd)).map (fun k => s!"A {sid + k}") :=
  regions_go_ids rd sid

theorem generate_area_data_length (rd : List (String × List String)) (sid : Nat) :
    (generate_area_data rd sid).length = 2 * totalDistricts rd := by
  have h := congrArg List.length (generate_area_data_ids rd sid)
  simpa using h

theorem generate_area_data_ids_nodup (rd : List (String × List String)) (sid : Nat) :
    ((generate_area_data rd sid).map Area.areaID).Nodup := by
  rw [generate_area_data_ids]
  refine List.Nodup.map ?_ (List.nodup_range _)
  intro k1 k2 hk
  have h := areaIdStr_inj hk
  omega

theorem area_data_spec_append :
    ∀ (l1 l2 : List (String × String)) (aid : Nat),
      area_data_spec (l1 ++ l2) aid =
        area_data_spec l1 aid ++ area_data_spec l2 (aid + 2 * l1.length) := by
  intro l1
  induction l1 with
  | nil => intro l2 aid; simp [area_data_spec]
  | cons q l1 ih =>
    intro l2 aid
    obtain ⟨r, d⟩ := q
    have harith : aid + 2 * ((r, d) :: l1).length = aid + 2 + 2 * l1.length := by
      simp [List.length_cons]; ring
    rw [harith]
    simp only [List.cons_append, area_data_spec, List.append_eq]
    rw [ih l2 (aid + 2)]
    simp [List.append_assoc]

theorem districts_go_spec (region : String) :
    ∀ (ds : List String) (aid : Nat),
      districts_go region ds aid = area_data_spec (ds.map (fun d => (region, d))) aid := by
  intro ds
  induction ds with
  | nil => intro aid; rfl
  | cons d ds ih =>
    intro aid
    show district_areas region d aid ++ districts_go region ds (aid + 2) = _
    rw [ih]
    rfl

theorem regions_go_spec :
    ∀ (rd : List (String × List String)) (aid : Nat),
      regions_go rd aid = area_data_spec (flatDistricts rd) aid := by
  intro rd
  induction rd with
  | nil => intro aid; rfl
  | cons p rest ih =>
    intro aid
    obtain ⟨region, districts⟩ := p
    show districts_go region districts aid ++
        regions_go rest (aid + 2 * districts.length) = _
    rw [districts_go_spec, ih]
    have hflat : flatDistricts ((region, districts) :: rest) =
        districts.map (fun d => (region, d)) ++ flatDistricts rest := rfl
    rw [hflat, area_data_spec_append]
    congr 2
    simp [List.length_map]

/-! ## The claims -/

/-- Claim C1 (corrected): `random.randint(100, 200)` includes both endpoints,
so the target of every record produced by `generate_sampling_facts` lies in
the closed interval `[100, 200]`, not `[100, 199]`. -/
theorem generate_sampling_facts_target_in_100_200
    (area_df : List Area) (promoter_df : List Promoter)
    (sampling_type_df : List SamplingTypeRow)
    (institution_types toothpaste_brands : List String) (today : Int)
    (num_samples start_id : Nat) (st : GenState)
    (facts : List SamplingFact) (st' : GenState)
    (h : generate_sampling_facts area_df promoter_df sampling_type_df institution_types
      toothpaste_brands today num_samples start_id st = some (facts, st'))
    (f : SamplingFact) (hf : f ∈ facts) :
    100 ≤ f.target ∧ f.target ≤ 200 :=
  ⟨(generate_sampling_facts_ok h f hf).1, (generate_sampling_facts_ok h f hf).2.1⟩

/-- Witness for C1's theorem: a concrete run of `generate_sampling_facts`. -/
theorem generate_sampling_facts_target_in_100_200_witness :
    100 ≤ wFact1.target ∧ wFact1.target ≤ 200 :=
  generate_sampling_facts_target_in_100_200 mainArea mainPromoters mainTypes
    define_lookup_data.institution_types define_lookup_data.toothpaste_brands 0 1 1000
    emptyGen [wFact1] emptyGen (by decide) wFact1 (by decide)

/-- Counterexample to C1 as stated: a concrete run of
`generate_sampling_facts` (event count 1, the tables `main` builds, `std`
source `[0, 100, 0]`) produces a record whose target is `200 ∉ [100, 199]`. -/
theorem generate_sampling_facts_target_200 :
    generate_sampling_facts mainArea mainPromoters mainTypes
      define_lookup_data.institution_types define_lookup_data.toothpaste_brands
      0 1 1000 st200 = some ([wFact200], emptyGen) ∧ ¬ (wFact200.target ≤ 199) :=
  ⟨by decide, by decide⟩

/-- Claim C2 (confirmed): in every record produced by
`generate_sampling_facts`, `institutionType` is set iff the sampled type key
is `"ST5"`, and `passengers` is set iff the sampled type key is `"ST2"`. -/
theorem generate_sampling_facts_optional_fields_iff
    (area_df : List Area) (promoter_df : List Promoter)
    (sampling_type_df : List SamplingTypeRow)
    (institution_types toothpaste_brands : List String) (today : Int)
    (num_samples start_id : Nat) (st : GenState)
    (facts : List SamplingFact) (st' : GenState)
    (h : generate_sampling_facts area_df promoter_df sampling_type_df institution_types
      toothpaste_brands today num_samples start_id st = some (facts, st'))
    (f : SamplingFact) (hf : f ∈ facts) :
    (f.institutionType.isSome ↔ f.samplingType = "ST5") ∧
    (f.passengers.isSome ↔ f.samplingType = "ST2") :=
  ⟨(generate_sampling_facts_ok h f hf).2.2.2.1,
   (generate_sampling_facts_ok h f hf).2.2.2.2.1⟩

/-- Witness for C2's theorem: a concrete `ST2` event with passengers set. -/
theorem generate_sampling_facts_optional_fields_iff_witness :
    (wFactST2.institutionType.isSome ↔ wFactST2.samplingType = "ST5") ∧
    (wFactST2.passengers.isSome ↔ wFactST2.samplingType = "ST2") :=
  generate_sampling_facts_optional_fields_iff mainArea mainPromoters mainTypes
    define_lookup_data.institution_types define_lookup_data.toothpaste_brands 0 1 1000
    stST2 [wFactST2] emptyGen (by decide) wFactST2 (by decide)

/-- Claim C3 (confirmed): whenever `generate_respondents` succeeds, its
output splits into one batch per sampling event (in order), and each batch's
size lies in the inclusive range `[100, event.target]`. -/
theorem generate_respondents_batch_size_in_range
    (sampling_fact_df : List SamplingFact) (area_df : List Area)
    (age_ranges toothpaste_brands reasons : List String) (start_id : Nat)
    (st : GenState) (out : List Respondent) (st' : GenState)
    (h : generate_respondents sampling_fact_df area_df age_ranges toothpaste_brands
      reasons start_id st = some (out, st')) :
    ∃ batches : List (List Respondent), out = batches.flatten ∧
      List.Forall₂ (fun (b : List Respondent) (f : SamplingFact) =>
        100 ≤ b.length ∧ b.length ≤ f.target) batches sampling_fact_df := by
  obtain ⟨bs, hbs, hF⟩ := respondents_go_ok h
  exact ⟨bs, hbs, hF.imp (fun _ _ hx => hx.1)⟩

/-- Witness for C3's theorem: a concrete run of `generate_respondents`. -/
theorem generate_respondents_batch_size_in_range_witness :
    ∃ out st' batches,
      generate_respondents [wFact1] mainArea define_lookup_data.age_ranges
        define_lookup_data.toothpaste_brands define_lookup_data.reasons 1000 emptyGen =
        some (out, st') ∧
      out = List.flatten batches ∧
      List.Forall₂ (fun (b : List Respondent) (f : SamplingFact) =>
        100 ≤ b.length ∧ b.length ≤ f.target) batches [wFact1] :=
  match hR : generate_respondents [wFact1] mainArea define_lookup_data.age_ranges
      define_lookup_data.toothpaste_brands define_lookup_data.reasons 1000 emptyGen with
  | some (out, st') =>
    match generate_respondents_batch_size_in_range [wFact1] mainArea
        define_lookup_data.age_ranges define_lookup_data.toothpaste_brands
        define_lookup_data.reasons 1000 emptyGen out st' hR with
    | ⟨bs, h1, h2⟩ => ⟨out, st', bs, rfl, h1, h2⟩
  | none => absurd (congrArg Option.isSome hR) (by decide)

/-- Claim C4 (confirmed): every record produced by `generate_sampling_facts`
has `endDate = startDate + 30` days. -/
theorem generate_sampling_facts_end_date_eq_start_plus_30
    (area_df : List Area) (promoter_df : List Promoter)
    (sampling_type_df : List SamplingTypeRow)
    (institution_types toothpaste_brands : List String) (today : Int)
    (num_samples start_id : Nat) (st : GenState)
    (facts : List SamplingFact) (st' : GenState)
    (h : generate_sampling_facts area_df promoter_df sampling_type_df institution_types
      toothpaste_brands today num_samples start_id st = some (facts, st'))
    (f : SamplingFact) (hf : f ∈ facts) :
    f.endDate = f.startDate + 30 :=
  (generate_sampling_facts_ok h f hf).2.2.1

/-- Witness for C4's theorem: a concrete run of `generate_sampling_facts`. -/
theorem generate_sampling_facts_end_date_eq_start_plus_30_witness :
    wFact1.endDate = wFact1.startDate + 30 :=
  generate_sampling_facts_end_date_eq_start_plus_30 mainArea mainPromoters mainTypes
    define_lookup_data.institution_types define_lookup_data.toothpaste_brands 0 1 1000
    emptyGen [wFact1] emptyGen (by decide) wFact1 (by decide)

/-- Claim C5 (confirmed): whenever `generate_respondents` succeeds, each
respondent of the batch generated for an event carries that event's
`samplingID` and a submission date inside the event's inclusive day window
`[startDate, endDate]`. -/
theorem generate_respondents_submission_in_event_window
    (sampling_fact_df : List SamplingFact) (area_df : List Area)
    (age_ranges toothpaste_brands reasons : List String) (start_id : Nat)
    (st : GenState) (out : List Respondent) (st' : GenState)
    (h : generate_respondents sampling_fact_df area_df age_ranges toothpaste_brands
      reasons start_id st = some (out, st')) :
    ∃ batches : List (List Respondent), out = batches.flatten ∧
      List.Forall₂ (fun (b : List Respondent) (f : SamplingFact) => ∀ r ∈ b,
        r.samplingID = f.samplingID ∧
        f.startDate ≤ r.dateOfSubmistion ∧ r.dateOfSubmistion ≤ f.endDate)
        batches sampling_fact_df := by
  obtain ⟨bs, hbs, hF⟩ := respondents_go_ok h
  refine ⟨bs, hbs, hF.imp ?_⟩
  intro b f hx r hr
  exact ⟨(hx.2 r hr).1, (hx.2 r hr).2.2.1, (hx.2 r hr).2.2.2⟩

/-- Witness for C5's theorem: a concrete run of `generate_respondents`. -/
theorem generate_respondents_submission_in_event_window_witness :
    ∃ out st' batches,
      generate_respondents [wFact1] mainArea define_lookup_data.age_ranges
        define_lookup_data.toothpaste_brands define_lookup_data.reasons 1000 emptyGen =
        some (out, st') ∧
      out = List.flatten batches ∧
      List.Forall₂ (fun (b : List Respondent) (f : SamplingFact) => ∀ r ∈ b,
        r.samplingID = f.samplingID ∧
        f.startDate ≤ r.dateOfSubmistion ∧ r.dateOfSubmistion ≤ f.endDate)
        batches [wFact1] :=
  match hR : generate_respondents [wFact1] mainArea define_lookup_data.age_ranges
      define_lookup_data.toothpaste_brands define_lookup_data.reasons 1000 emptyGen with
  | some (out, st') =>
    match generate_respondents_submission_in_event_window [wFact1] mainArea
        define_lookup_data.age_ranges define_lookup_data.toothpaste_brands
        define_lookup_data.reasons 1000 emptyGen out st' hR with
    | ⟨bs, h1, h2⟩ => ⟨out, st', bs, rfl, h1, h2⟩
  | none => absurd (congrArg Option.isSome hR) (by decide)

set_option maxRecDepth 4000 in
/-- Claim C6 (code bug): the output of `main` is not a function of the seed
alone.  `initialize_faker` seeds `random` and `np.random` but never calls
`Faker.seed`, so the faker source starts from per-run OS entropy: two runs
with seed 42 and identical seed-derived `std`/`npr` sources but different
faker entropy produce different tables (already the promoter names differ). -/
theorem main_seed_does_not_determine_output :
    main_with_seed (fun _ => []) (fun _ => []) 42 0 [] ≠
      main_with_seed (fun _ => []) (fun _ => []) 42 0 [1] := by
  decide

/-- Claim C7 (confirmed): referential integrity of the generated tables.
Every sampling event's `areaID`, `promoterID` and `samplingType` resolve
into the area, promoter and sampling-type tables it was generated from, and
every respondent's `samplingID` and `areaID` resolve into the sampling-fact
and area tables. -/
theorem pipeline_referential_integrity
    (area_df : List Area) (promoter_df : List Promoter)
    (sampling_type_df : List SamplingTypeRow)
    (institution_types toothpaste_brands : List String) (today : Int)
    (num_samples start_id : Nat) (st : GenState)
    (facts : List SamplingFact) (st1 : GenState)
    (age_ranges toothpaste_brands2 reasons : List String) (start_id2 : Nat)
    (out : List Respondent) (st2 : GenState)
    (hF : generate_sampling_facts area_df promoter_df sampling_type_df institution_types
      toothpaste_brands today num_samples start_id st = some (facts, st1))
    (hR : generate_respondents facts area_df age_ranges toothpaste_brands2 reasons
      start_id2 st1 = some (out, st2)) :
    (∀ f ∈ facts,
      f.areaID ∈ area_df.map Area.areaID ∧
      f.promoterID ∈ promoter_df.map Promoter.promoterID ∧
      f.samplingType ∈ sampling_type_df.map SamplingTypeRow.key) ∧
    (∀ r ∈ out,
      r.samplingID ∈ facts.map SamplingFact.samplingID ∧
      r.areaID ∈ area_df.map Area.areaID) := by
  constructor
  · intro f hf
    have hp := generate_sampling_facts_ok hF f hf
    exact ⟨hp.2.2.2.2.2.2.1, hp.2.2.2.2.2.2.2.1, hp.2.2.2.2.2.2.2.2⟩
  · intro r hr
    obtain ⟨bs, hbs, hFor⟩ := respondents_go_ok hR
    rw [hbs] at hr
    obtain ⟨b, hb, hrb⟩ := List.mem_flatten.mp hr
    obtain ⟨f, hfmem, hRel⟩ := forall2_exists_left hFor hb
    have hprops := hRel.2 r hrb
    constructor
    · rw [hprops.1]
      exact List.mem_map_of_mem SamplingFact.samplingID hfmem
    · rw [hprops.2.1]
      exact (generate_sampling_facts_ok hF f hfmem).2.2.2.2.2.2.1

/-- Witness for C7's theorem: a concrete composed run. -/
theorem pipeline_referential_integrity_witness :
    ∃ out st2,
      generate_respondents [wFact1] mainArea define_lookup_data.age_ranges
        define_lookup_data.toothpaste_brands define_lookup_data.reasons 1000 emptyGen =
        some (out, st2) ∧
      wFact1.areaID ∈ mainArea.map Area.areaID ∧
      ∀ r ∈ out, r.samplingID ∈ [wFact1].map SamplingFact.samplingID ∧
        r.areaID ∈ mainArea.map Area.areaID :=
  match hR : generate_respondents [wFact1] mainArea define_lookup_data.age_ranges
      define_lookup_data.toothpaste_brands define_lookup_data.reasons 1000 emptyGen with
  | some (out, st2) =>
    have h := pipeline_referential_integrity mainArea mainPromoters mainTypes
      define_lookup_data.institution_types define_lookup_data.toothpaste_brands
      0 1 1000 emptyGen [wFact1] emptyGen define_lookup_data.age_ranges
      define_lookup_data.toothpaste_brands define_lookup_data.reasons 1000 out st2
      (by decide) hR
    ⟨out, st2, rfl, (h.1 wFact1 (by decide)).1, h.2⟩
  | none => absurd (congrArg Option.isSome hR) (by decide)

/-- Claim C8 (confirmed): `generate_area_data` deterministically produces,
per district and in mapping iteration order, exactly the two records the
spec describes (names `{district} Area 1` / `Area 2`), `2 ×` the number of
districts records in total, with sequential IDs `A {start_id + k}` that are
pairwise distinct. -/
theorem generate_area_data_matches_spec
    (regions_districts : List (String × List String)) (start_id : Nat) :
    generate_area_data regions_districts start_id =
      area_data_spec (flatDistricts regions_districts) start_id ∧
    (generate_area_data regions_districts start_id).length =
      2 * totalDistricts regions_districts ∧
    (generate_area_data regions_districts start_id).map Area.areaID =
      (List.range (2 * totalDistricts regions_districts)).map
        (fun k => s!"A {start_id + k}") ∧
    ((generate_area_data regions_districts start_id).map Area.areaID).Nodup :=
  ⟨regions_go_spec regions_districts start_id,
   generate_area_data_length regions_districts start_id,
   generate_area_data_ids regions_districts start_id,
   generate_area_data_ids_nodup regions_districts start_id⟩

/-- Claim C9 (corrected): `random.randint(5, 10)` includes both endpoints,
so a set `passengers` value lies in the closed interval `[5, 10]`, not
`[5, 9]`. -/
theorem generate_sampling_facts_passengers_in_5_10
    (area_df : List Area) (promoter_df : List Promoter)
    (sampling_type_df : List SamplingTypeRow)
    (institution_types toothpaste_brands : List String) (today : Int)
    (num_samples start_id : Nat) (st : GenState)
    (facts : List SamplingFact) (st' : GenState)
    (h : generate_sampling_facts area_df promoter_df sampling_type_df institution_types
      toothpaste_brands today num_samples start_id st = some (facts, st'))
    (f : SamplingFact) (hf : f ∈ facts) (p : Nat) (hp : f.passengers = some p) :
    5 ≤ p ∧ p ≤ 10 :=
  (generate_sampling_facts_ok h f hf).2.2.2.2.2.1 p hp

/-- Witness for C9's theorem: a concrete `ST2` event with `passengers = 10`. -/
theorem generate_sampling_facts_passengers_in_5_10_witness :
    (5 : Nat) ≤ 10 ∧ (10 : Nat) ≤ 10 :=
  generate_sampling_facts_passengers_in_5_10 mainArea mainPromoters mainTypes
    define_lookup_data.institution_types define_lookup_data.toothpaste_brands 0 1 1000
    stST2 [wFactST2] emptyGen (by decide) wFactST2 (by decide) 10 (by decide)

/-- Counterexample to C9 as stated: a concrete run of
`generate_sampling_facts` (`std` source `[1, 0, 5, 0]`) produces a traffic
event whose passengers value is `10 ∉ [5, 9]`. -/
theorem generate_sampling_facts_passengers_10 :
    generate_sampling_facts mainArea mainPromoters mainTypes
      define_lookup_data.institution_types define_lookup_data.toothpaste_brands
      0 1 1000 stST2 = some ([wFactST2], emptyGen) ∧
    wFactST2.passengers = some 10 ∧ ¬ ((10 : Nat) ≤ 9) :=
  ⟨by decide, by decide, by decide⟩

/-- Claim C10 (confirmed): composed as in `main` (the area and sampling-type
tables `main` builds, `main`'s lookup lists), every generated event's target
is at least 100, so the batch-size draw `random.randint(100, target)` of
`generate_respondents` always has a non-inverted range and its error branch
is unreachable: the respondent generation succeeds. -/
theorem main_composition_batch_randint_safe
    (promoter_df : List Promoter) (today : Int)
    (num_samples start_id start_id2 : Nat) (st st1 : GenState)
    (facts : List SamplingFact)
    (hF : generate_sampling_facts mainArea promoter_df mainTypes
      define_lookup_data.institution_types define_lookup_data.toothpaste_brands
      today num_samples start_id st = some (facts, st1)) :
    (∀ f ∈ facts, 100 ≤ f.target) ∧
    (generate_respondents facts mainArea define_lookup_data.age_ranges
      define_lookup_data.toothpaste_brands define_lookup_data.reasons
      start_id2 st1).isSome = true := by
  have hprops := generate_sampling_facts_ok hF
  constructor
  · intro f hf
    exact (hprops f hf).1
  · show (respondents_go mainArea define_lookup_data.age_ranges
      define_lookup_data.toothpaste_brands define_lookup_data.reasons
      facts start_id2 st1).isSome = true
    apply respondents_go_isSome (by decide) (by decide) (by decide) (by decide)
    intro f hf
    refine ⟨(hprops f hf).1, ?_⟩
    have h30 := (hprops f hf).2.2.1
    omega

/-- Witness for C10's theorem: a concrete composed run. -/
theorem main_composition_batch_randint_safe_witness :
    100 ≤ wFact1.target ∧
    (generate_respondents [wFact1] mainArea define_lookup_data.age_ranges
      define_lookup_data.toothpaste_brands define_lookup_data.reasons
      1000 emptyGen).isSome = true :=
  have h := main_composition_batch_randint_safe mainPromoters 0 1 1000 1000
    emptyGen emptyGen [wFact1] (by decide)
  ⟨h.1 wFact1 (by decide), h.2⟩

end MarketSampling
